import Mathlib

/-!
Verification of the `run` entrypoint in `cmd/nucleus/bin.go` of the
test-at-scale nucleus coordinator.

The Go function `run` is straight-line code with early process exits
(`os.Exit`, `log.Fatalf`, `logger.Fatalf`), a once-only global host
assignment, a block of collaborator-field assignments on the pipeline,
the launch of two goroutines (pipeline orchestrator and local API
server), and a two-level `select` implementing the graceful-shutdown
protocol with a 5000 ms grace period.

We embed `run` shallowly as a pure function from a `RunInput` — the
results of the fallible external calls (`config.LoadNucleusConfig`,
`lumber.NewLogger`, `core.NewPipeline`, the service constructors) and
the scheduler's choices in the two `select` statements — to a
`RunResult`: the ordered trace of the coordinator's observable actions
and the way the process ends.  Routine informational/debug log lines
that no claim depends on are elided from the trace; every branch,
assignment and exit of the source is represented.
-/

namespace Nucleus

/-- Embeds the `LogConfig` portion of the nucleus configuration that
`run` touches: `cfg.LogConfig.FileLocation` (bin.go line 75). -/
structure LogConfig where
  fileLocation : String
  deriving DecidableEq

/-- Embeds the fields of the nucleus configuration struct that `run`
reads or writes: `LogFile`, `LogConfig`, `Verbose`, `LocalRunner`,
`SynapseHost` (bin.go lines 67-93). -/
structure Config where
  logFile : String
  logConfig : LogConfig
  verbose : Bool
  localRunner : Bool
  synapseHost : String
  deriving DecidableEq

/-- Embeds Go `filepath.Join` at its single use site (bin.go line 75),
joining two components with the separator.  Go's `Join` additionally
runs `filepath.Clean`; that normalization touches neither component
choice nor emptiness and is elided as irrelevant to the claims. -/
def filepathJoin (a b : String) : String :=
  if a = "" then b else a ++ "/" ++ b

/-- Modelled from the spec: the fixed remote control-plane host
constant `global.NeuronRemoteHost` lives in the `global` package, which
is not under src/; the spec only requires it to be a fixed host
address, so its concrete value is a placeholder. -/
def NeuronRemoteHost : String := "neuron-remote-host"

/-- The grace period of bin.go line 62:
`const gracefulTimeout = 5000 * time.Millisecond`. -/
def gracefulTimeoutMs : Nat := 5000

/-- Observable actions of the coordinator (`run`) and of its two
goroutines, in source order.  `logFatalAt`/`logErrAt` carry a tag for
the program point (the Go messages at distinct sites are near
identical, so the tag disambiguates sites, not text). -/
inductive Ev where
  /-- line 69: `fmt.Printf("[Error] Failed to load config: ...")` -/
  | printLoadConfigError : Ev
  /-- line 80: `lumber.NewLogger(cfg.LogConfig, ...)` is invoked with
  the (possibly patched) file location. -/
  | newLoggerCall (fileLocation : String) : Ev
  /-- a `log.Fatalf` / `logger.Fatalf` at the tagged site; exits 1. -/
  | logFatalAt (site : String) : Ev
  /-- an `logger.Errorf` at the tagged site (does not exit). -/
  | logErrAt (site : String) : Ev
  /-- lines 88 and 92: `global.SetNeuronHost(...)`. -/
  | setNeuronHost (host : String) : Ev
  /-- line 94: `core.NewPipeline(cfg, logger)` is invoked. -/
  | newPipelineCall : Ev
  /-- lines 151-164: `pl.<field> = ...` for the named field. -/
  | assignField (field : String) : Ev
  /-- lines 168-174: launch of the pipeline goroutine. -/
  | goPipelineStart : Ev
  /-- lines 175-180: launch of the API-server goroutine. -/
  | goServerStart : Ev
  /-- lines 182-183: `signal.Notify(c, os.Interrupt)`. -/
  | signalNotifyInterrupt : Ev
  /-- line 205 (in the interrupt branch): `cancel()`. -/
  | cancelCtx : Ev
  /-- lines 206-211: the inner `select` awaiting `done` against
  `time.After(gracefulTimeout)`. -/
  | awaitDone : Ev
  /-- line 208: `logger.Debugf("Go routines exited within timeout")`. -/
  | logDoneWithinTimeout : Ev
  /-- line 210: `logger.Errorf("Graceful timeout exceeded. Brutally
  killing the application")`. -/
  | logGraceTimeoutExceeded : Ev
  /-- line 173 (inside the pipeline goroutine): `pl.Start(ctx)`; the
  flag is the orchestrator's outcome, which the caller discards. -/
  | pipelineStartCall (startOk : Bool) : Ev
  /-- line 179 (inside the server goroutine):
  `server.ListenAndServe(ctx, router, cfg, logger)`. -/
  | serverListenAndServe : Ev
  /-- a deferred `wg.Done()` (lines 171, 178). -/
  | wgDone : Ev
  deriving DecidableEq

/-- The scheduler's resolution of the outer `select` (lines 199-216):
either `done` fires first (both tasks finished before any interrupt),
or the interrupt channel fires first; in the latter case
`doneAfterCancelMs` is when (ms after `cancel()`) both goroutines
finish, `none` if they never do. -/
inductive OuterSelect where
  | tasksDoneFirst : OuterSelect
  | interruptFirst (doneAfterCancelMs : Option Nat) : OuterSelect
  deriving DecidableEq

/-- How `run` ends the process: an explicit `os.Exit`/`Fatalf` with a
code, or a plain return from `run`. -/
inductive RunOutcome where
  | exit (code : Nat) : RunOutcome
  | ret : RunOutcome
  deriving DecidableEq

/-- Modelled from the spec: `main` (the caller of the cobra command
whose `Run` is this `run`) is not under src/.  When `run` returns
normally the process ends by `main` returning, which per Go semantics
and the spec's "exit normally" is exit status 0. -/
def processExitCode : RunOutcome → Nat
  | RunOutcome.exit c => c
  | RunOutcome.ret => 0

/-- Results of the fallible external calls made by `run`, in source
order, plus the scheduler's choice.  `loadedConfig = none` means
`config.LoadNucleusConfig` returned an error; each `Ok` flag is
whether the corresponding constructor returned `err == nil`.
`pipelineStartOutcome` is whether `pl.Start(ctx)` (line 173)
succeeded — the source discards it. -/
structure RunInput where
  loadedConfig : Option Config
  newLoggerOk : Bool
  newPipelineOk : Bool
  testStatsOk : Bool
  azureBlobOk : Bool
  blockListOk : Bool
  taskOk : Bool
  zstdOk : Bool
  cacheOk : Bool
  parserOk : Bool
  coverageOk : Bool
  pipelineStartOutcome : Bool
  outerSelect : OuterSelect
  deriving DecidableEq

/-- Trace of the coordinator's own actions, and the process outcome. -/
structure RunResult where
  trace : List Ev
  outcome : RunOutcome
  deriving DecidableEq

/-- The fourteen collaborator fields assigned to the pipeline at
bin.go lines 151-164, in source order. -/
def collaboratorFields : List String :=
  ["PayloadManager", "TASConfigManager", "GitManager", "DiffManager",
   "TestDiscoveryService", "TestBlockListService", "TestExecutionService",
   "ExecutionManager", "ParserService", "CoverageService", "TestStats",
   "Task", "CacheStore", "SecretParser"]

/-- bin.go lines 73-76: if `cfg.LogFile != ""` the log configuration's
file location is overwritten with
`filepath.Join(cfg.LogFile, "nucleus.log")`; otherwise the
configuration is left as loaded. -/
def patchedConfig (cfg0 : Config) : Config :=
  if cfg0.logFile ≠ "" then
    ⟨cfg0.logFile, ⟨filepathJoin cfg0.logFile "nucleus.log"⟩,
     cfg0.verbose, cfg0.localRunner, cfg0.synapseHost⟩
  else cfg0

/-- bin.go lines 86-93: the host passed to `global.SetNeuronHost`:
`strings.TrimSpace(cfg.SynapseHost)` (Lean `String.trim`; Go trims
Unicode space, irrelevant to the claims) when `cfg.LocalRunner`, else
the fixed `global.NeuronRemoteHost`. -/
def resolvedHost (cfg : Config) : String :=
  if cfg.localRunner then cfg.synapseHost.trim else NeuronRemoteHost

/-- The coordinator's actions from the logger construction (line 80)
through the pipeline construction (line 94): logger, one host write,
`core.NewPipeline`. -/
def preTrace (cfg0 : Config) : List Ev :=
  [Ev.newLoggerCall (patchedConfig cfg0).logConfig.fileLocation,
   Ev.setNeuronHost (resolvedHost (patchedConfig cfg0)),
   Ev.newPipelineCall]

/-- The coordinator's actions through line 183, on the path where every
constructor succeeded: `preTrace`, the fourteen collaborator
assignments (lines 151-164), the two goroutine launches (lines
168-180), and `signal.Notify` (lines 182-183). -/
def launchedTrace (cfg0 : Config) : List Ev :=
  preTrace cfg0 ++ collaboratorFields.map Ev.assignField ++
    [Ev.goPipelineStart, Ev.goServerStart, Ev.signalNotifyInterrupt]

/-- Shallow embedding of `run` (bin.go lines 56-218).  Control flow is
transcribed branch for branch:

* lines 67-71: config load failure prints and `os.Exit(1)`;
* lines 73-76: the log-file patch (`patchedConfig`);
* lines 80-83: `lumber.NewLogger`; on error `log.Fatalf` (exit 1);
* lines 86-93: one `global.SetNeuronHost(resolvedHost cfg)` call;
* lines 94-99: `core.NewPipeline`; on error `Errorf` then `os.Exit(1)`;
* lines 101-149: the fallible constructors, each `logger.Fatalf` on
  error (exit 1); lines 105-111 contain the duplicated azure check
  `if err != nil && !cfg.LocalRunner`, transcribed verbatim; the
  infallible constructors (payload manager, secret parser, TAS config
  manager, git manager, diff manager, execution manager, test
  discovery and execution services, router) emit no events;
* lines 151-164: the collaborator assignments;
* lines 168-183: goroutine launches and `signal.Notify`;
* lines 199-216: the outer `select`: `done` first means `os.Exit(0)`;
  interrupt first means `cancel()`, then the inner `select` between
  `done` and `time.After(gracefulTimeout)`, logging accordingly, after
  which `run` falls through and returns (`RunOutcome.ret`).

The transcription is split into phase functions so that each carries at
most a handful of branches; `run` composes them in source order.

The `pipelineStartOutcome` field is deliberately unread: line 173
discards the result of `pl.Start(ctx)`. -/
def shutdownSelect (cfg0 : Config) (outerSelect : OuterSelect) : RunResult :=
  match outerSelect with
  | OuterSelect.tasksDoneFirst => ⟨launchedTrace cfg0, RunOutcome.exit 0⟩
  | OuterSelect.interruptFirst doneAfter =>
    match doneAfter with
    | some d =>
      if d < gracefulTimeoutMs then
        ⟨launchedTrace cfg0 ++
          [Ev.cancelCtx, Ev.awaitDone, Ev.logDoneWithinTimeout],
         RunOutcome.ret⟩
      else
        ⟨launchedTrace cfg0 ++
          [Ev.cancelCtx, Ev.awaitDone, Ev.logGraceTimeoutExceeded],
         RunOutcome.ret⟩
    | none =>
      ⟨launchedTrace cfg0 ++
        [Ev.cancelCtx, Ev.awaitDone, Ev.logGraceTimeoutExceeded],
       RunOutcome.ret⟩

/-- bin.go lines 133-149: the zstd compressor, cache manager, parser
service and coverage service constructors, each `logger.Fatalf` on
error; on success control reaches the assignments, goroutine launches
and the `select` (`shutdownSelect`). -/
def initServicesTail (cfg0 : Config) (zstdOk cacheOk parserOk coverageOk : Bool)
    (outerSelect : OuterSelect) : RunResult :=
  if !zstdOk then
    ⟨preTrace cfg0 ++ [Ev.logFatalAt "zstd"], RunOutcome.exit 1⟩
  else if !cacheOk then
    ⟨preTrace cfg0 ++ [Ev.logFatalAt "cache"], RunOutcome.exit 1⟩
  else if !parserOk then
    ⟨preTrace cfg0 ++ [Ev.logFatalAt "parserService"], RunOutcome.exit 1⟩
  else if !coverageOk then
    ⟨preTrace cfg0 ++ [Ev.logFatalAt "coverage"], RunOutcome.exit 1⟩
  else
    shutdownSelect cfg0 outerSelect

/-- bin.go lines 101-131: the test-stats constructor, the azure
blob-store constructor with its two error checks — the unconditional
`if err != nil` (lines 106-108) and the duplicated
`if err != nil && !cfg.LocalRunner` (lines 109-111), transcribed
verbatim — then the blocklist-service and task constructors.  The
infallible constructors in between (payload manager, secret parser,
TAS config manager, git manager, diff manager, execution manager, test
discovery and execution services, router) emit no events. -/
def initServices (cfg0 : Config)
    (testStatsOk azureBlobOk blockListOk taskOk zstdOk cacheOk parserOk coverageOk : Bool)
    (outerSelect : OuterSelect) : RunResult :=
  if !testStatsOk then
    ⟨preTrace cfg0 ++ [Ev.logFatalAt "teststats"], RunOutcome.exit 1⟩
  else if !azureBlobOk then
    ⟨preTrace cfg0 ++ [Ev.logFatalAt "azureBlob"], RunOutcome.exit 1⟩
  else if !azureBlobOk && !(patchedConfig cfg0).localRunner then
    ⟨preTrace cfg0 ++ [Ev.logFatalAt "azureBlobNonLocal"], RunOutcome.exit 1⟩
  else if !blockListOk then
    ⟨preTrace cfg0 ++ [Ev.logFatalAt "blocklist"], RunOutcome.exit 1⟩
  else if !taskOk then
    ⟨preTrace cfg0 ++ [Ev.logFatalAt "task"], RunOutcome.exit 1⟩
  else
    initServicesTail cfg0 zstdOk cacheOk parserOk coverageOk outerSelect

/-- bin.go lines 56-218, entry of the transcription: the config load
with its print-and-exit error path (lines 67-71), the logger
construction on the patched configuration with its `log.Fatalf` path
(lines 80-83), the `core.NewPipeline` construction with its
`Errorf` + `os.Exit(1)` path (lines 94-99), then `initServices`. -/
def run : RunInput → RunResult
  | ⟨none, _, _, _, _, _, _, _, _, _, _, _, _⟩ =>
    ⟨[Ev.printLoadConfigError], RunOutcome.exit 1⟩
  | ⟨some cfg0, newLoggerOk, newPipelineOk, testStatsOk, azureBlobOk,
     blockListOk, taskOk, zstdOk, cacheOk, parserOk, coverageOk,
     _pipelineStartOutcome, outerSelect⟩ =>
    if !newLoggerOk then
      ⟨[Ev.newLoggerCall (patchedConfig cfg0).logConfig.fileLocation,
        Ev.logFatalAt "logger"], RunOutcome.exit 1⟩
    else if !newPipelineOk then
      ⟨preTrace cfg0 ++ [Ev.logErrAt "createPipeline"], RunOutcome.exit 1⟩
    else
      initServices cfg0 testStatsOk azureBlobOk blockListOk taskOk
        zstdOk cacheOk parserOk coverageOk outerSelect

/-- The pipeline goroutine (bin.go lines 169-174): its body calls
`pl.Start(ctx)` (the result is discarded), then the deferred calls run
in LIFO order: `wg.Done()` (line 171) and then `cancel()` (line 170). -/
def pipelineTaskTrace (startOk : Bool) : List Ev :=
  [Ev.pipelineStartCall startOk, Ev.wgDone, Ev.cancelCtx]

/-- The API-server goroutine (bin.go lines 176-180): its body calls
`server.ListenAndServe`, then the deferred `wg.Done()` (line 178) and
`cancel()` (line 177). -/
def serverTaskTrace : List Ev :=
  [Ev.serverListenAndServe, Ev.wgDone, Ev.cancelCtx]

/-- Modelled from the spec: the Pipeline Orchestrator (`core.Pipeline`,
not under src/) "never constructs them itself — it is purely a
sequencer over externally supplied capabilities"; its `Start` contract
is `Start(runContext) -> PipelineOutcome` and builds no collaborator. -/
def orchestratorConstructsCollaborators : Bool := false

/-- Recognizes a `setNeuronHost` event, for counting host writes. -/
def isSetNeuronHost : Ev → Bool
  | Ev.setNeuronHost _ => true
  | _ => false

/-- A convenient all-constructors-succeed input, parameterized by the
loaded configuration, the (discarded) pipeline-start outcome, and the
scheduler choice. -/
def allOkInput (cfg : Config) (startOk : Bool) (sel : OuterSelect) : RunInput :=
  ⟨some cfg, true, true, true, true, true, true, true, true, true, true,
   startOk, sel⟩

/-- A concrete sample configuration for witnesses. -/
def cfgSample : Config :=
  ⟨"", ⟨"/tmp/logcfg.log"⟩, false, false, "synapse.local"⟩

/-- The log-file patch leaves the `LocalRunner` flag unchanged. -/
theorem patchedConfig_localRunner (c : Config) :
    (patchedConfig c).localRunner = c.localRunner := by
  unfold patchedConfig; split <;> rfl

/-- The host resolved after the log-file patch is the host resolved
from the loaded configuration: the patch touches only the log file
location. -/
theorem resolvedHost_patched (c : Config) :
    resolvedHost (patchedConfig c) =
      if c.localRunner then c.synapseHost.trim else NeuronRemoteHost := by
  unfold resolvedHost patchedConfig
  split <;> rfl

/-- An event satisfies `isSetNeuronHost` exactly when it is a host
write. -/
theorem isSetNeuronHost_iff (e : Ev) :
    isSetNeuronHost e = true ↔ ∃ h, e = Ev.setNeuronHost h := by
  cases e <;> simp [isSetNeuronHost]

/-- Every `shutdownSelect` result extends `preTrace` with a suffix
free of host writes and of fatal-log events. -/
theorem shutdownSelect_shape (c : Config) (sel : OuterSelect) :
    ∃ r, (shutdownSelect c sel).trace = preTrace c ++ r ∧
      (∀ h, Ev.setNeuronHost h ∉ r) ∧ (∀ s, Ev.logFatalAt s ∉ r) := by
  have hmap : ∀ h, Ev.setNeuronHost h ∉ collaboratorFields.map Ev.assignField := by
    intro h; simp [collaboratorFields]
  have hmap2 : ∀ s, Ev.logFatalAt s ∉ collaboratorFields.map Ev.assignField := by
    intro s; simp [collaboratorFields]
  rcases sel with _ | d
  · refine ⟨collaboratorFields.map Ev.assignField ++
      [Ev.goPipelineStart, Ev.goServerStart, Ev.signalNotifyInterrupt], ?_, ?_, ?_⟩
    · simp [shutdownSelect, launchedTrace, List.append_assoc]
    · intro h; simp [hmap h]
    · intro s; simp [hmap2 s]
  · rcases d with _ | x
    · refine ⟨collaboratorFields.map Ev.assignField ++
        [Ev.goPipelineStart, Ev.goServerStart, Ev.signalNotifyInterrupt,
         Ev.cancelCtx, Ev.awaitDone, Ev.logGraceTimeoutExceeded], ?_, ?_, ?_⟩
      · simp [shutdownSelect, launchedTrace, List.append_assoc]
      · intro h; simp [hmap h]
      · intro s; simp [hmap2 s]
    · by_cases hx : x < gracefulTimeoutMs
      · refine ⟨collaboratorFields.map Ev.assignField ++
          [Ev.goPipelineStart, Ev.goServerStart, Ev.signalNotifyInterrupt,
           Ev.cancelCtx, Ev.awaitDone, Ev.logDoneWithinTimeout], ?_, ?_, ?_⟩
        · simp [shutdownSelect, launchedTrace, List.append_assoc, hx]
        · intro h; simp [hmap h]
        · intro s; simp [hmap2 s]
      · refine ⟨collaboratorFields.map Ev.assignField ++
          [Ev.goPipelineStart, Ev.goServerStart, Ev.signalNotifyInterrupt,
           Ev.cancelCtx, Ev.awaitDone, Ev.logGraceTimeoutExceeded], ?_, ?_, ?_⟩
        · simp [shutdownSelect, launchedTrace, List.append_assoc, hx]
        · intro h; simp [hmap h]
        · intro s; simp [hmap2 s]

/-- Every `initServicesTail` result extends `preTrace` with a suffix
free of host writes and of the dead azure-branch event. -/
theorem initServicesTail_shape (c : Config) (zs ca pa co : Bool) (sel : OuterSelect) :
    ∃ r, (initServicesTail c zs ca pa co sel).trace = preTrace c ++ r ∧
      (∀ h, Ev.setNeuronHost h ∉ r) ∧ Ev.logFatalAt "azureBlobNonLocal" ∉ r := by
  unfold initServicesTail
  split
  · exact ⟨[Ev.logFatalAt "zstd"], rfl, by simp, by simp⟩
  · split
    · exact ⟨[Ev.logFatalAt "cache"], rfl, by simp, by simp⟩
    · split
      · exact ⟨[Ev.logFatalAt "parserService"], rfl, by simp, by simp⟩
      · split
        · exact ⟨[Ev.logFatalAt "coverage"], rfl, by simp, by simp⟩
        · obtain ⟨r, hr, h1, h2⟩ := shutdownSelect_shape c sel
          exact ⟨r, hr, h1, fun hmem => h2 "azureBlobNonLocal" hmem⟩

/-- Every `initServices` result extends `preTrace` with a suffix free
of host writes and of the dead azure-branch event; in particular the
branch at bin.go lines 109-111 never contributes. -/
theorem initServices_shape (c : Config) (ts az bl tk zs ca pa co : Bool)
    (sel : OuterSelect) :
    ∃ r, (initServices c ts az bl tk zs ca pa co sel).trace = preTrace c ++ r ∧
      (∀ h, Ev.setNeuronHost h ∉ r) ∧ Ev.logFatalAt "azureBlobNonLocal" ∉ r := by
  unfold initServices
  split
  · exact ⟨[Ev.logFatalAt "teststats"], rfl, by simp, by simp⟩
  · split
    · exact ⟨[Ev.logFatalAt "azureBlob"], rfl, by simp, by simp⟩
    · split
      · simp_all
      · split
        · exact ⟨[Ev.logFatalAt "blocklist"], rfl, by simp, by simp⟩
        · split
          · exact ⟨[Ev.logFatalAt "task"], rfl, by simp, by simp⟩
          · exact initServicesTail_shape c zs ca pa co sel

/-- `preTrace` contains exactly one host write. -/
theorem preTrace_hostWriteCount (c : Config) :
    (preTrace c).countP isSetNeuronHost = 1 := by
  simp [preTrace, isSetNeuronHost]

/-- A list free of host-write events has host-write count zero. -/
theorem countP_setHost_zero (r : List Ev) (hr : ∀ h, Ev.setNeuronHost h ∉ r) :
    r.countP isSetNeuronHost = 0 := by
  rw [List.countP_eq_zero]
  intro a ha hpa
  obtain ⟨h, rfl⟩ := (isSetNeuronHost_iff a).mp hpa
  exact hr h ha

/-- In no execution of `run` does the azure-fatal branch that is
guarded by `err != nil && !cfg.LocalRunner` (bin.go lines 109-111)
emit its event: the unconditional check at lines 106-108 already exits
whenever `err != nil`, so the guarded check can never fire. -/
theorem deadAzureBranchNeverTaken (inp : RunInput) :
    Ev.logFatalAt "azureBlobNonLocal" ∉ (run inp).trace := by
  obtain ⟨lc, lg, pp, ts, az, bl, tk, zs, ca, pa, co, st, sel⟩ := inp
  rcases lc with _ | c
  · simp [run]
  · simp only [run]
    split
    · simp
    · split
      · simp [preTrace]
      · obtain ⟨r, hr, _, h2⟩ := initServices_shape c ts az bl tk zs ca pa co sel
        rw [hr]
        simp [preTrace, h2]

/-- Over any execution of `run`, `global.SetNeuronHost` is called at
most once. -/
theorem hostWriteCount_le_one (inp : RunInput) :
    ((run inp).trace.countP isSetNeuronHost) ≤ 1 := by
  obtain ⟨lc, lg, pp, ts, az, bl, tk, zs, ca, pa, co, st, sel⟩ := inp
  rcases lc with _ | c
  · simp [run, isSetNeuronHost]
  · simp only [run]
    split
    · simp [isSetNeuronHost]
    · split
      · simp [List.countP_append, preTrace_hostWriteCount, isSetNeuronHost]
      · obtain ⟨r, hr, h1, _⟩ := initServices_shape c ts az bl tk zs ca pa co sel
        rw [hr, List.countP_append, preTrace_hostWriteCount, countP_setHost_zero r h1]

/-- A concrete input whose config load failed, for witnesses. -/
def loadFailInput : RunInput :=
  ⟨none, true, true, true, true, true, true, true, true, true, true, true,
   OuterSelect.tasksDoneFirst⟩

/-- C7: if loading the configuration fails at process start, the
process exits immediately with a non-zero exit code (1), before the
pipeline is constructed (`core.NewPipeline` is never invoked) and
before any stage runs (the pipeline goroutine is never launched). -/
theorem C7_configLoadFailFastExit (inp : RunInput)
    (h : inp.loadedConfig = none) :
    (run inp).outcome = RunOutcome.exit 1 ∧
    (run inp).trace = [Ev.printLoadConfigError] ∧
    Ev.newPipelineCall ∉ (run inp).trace ∧
    Ev.goPipelineStart ∉ (run inp).trace := by
  obtain ⟨lc, lg, pp, ts, az, bl, tk, zs, ca, pa, co, st, sel⟩ := inp
  obtain rfl : lc = none := h
  exact ⟨rfl, rfl, by simp [run], by simp [run]⟩

/-- Witness for C7 at a concrete failing-config input. -/
theorem C7_configLoadFailFastExit_witness :
    (run loadFailInput).outcome = RunOutcome.exit 1 ∧
    (run loadFailInput).trace = [Ev.printLoadConfigError] ∧
    Ev.newPipelineCall ∉ (run loadFailInput).trace ∧
    Ev.goPipelineStart ∉ (run loadFailInput).trace :=
  C7_configLoadFailFastExit loadFailInput rfl

/-- C10: when the loaded configuration has a non-empty `LogFile`, the
logger is constructed (first observable action) on the file location
`filepath.Join(LogFile, "nucleus.log")`; when `LogFile` is empty, the
logger is constructed on the unchanged configured file location. -/
theorem C10_logLocationPatchedBeforeLogger (inp : RunInput) (cfg : Config)
    (h : inp.loadedConfig = some cfg) :
    (run inp).trace.head? =
      some (Ev.newLoggerCall
        (if cfg.logFile ≠ "" then filepathJoin cfg.logFile "nucleus.log"
         else cfg.logConfig.fileLocation)) := by
  obtain ⟨lc, lg, pp, ts, az, bl, tk, zs, ca, pa, co, st, sel⟩ := inp
  obtain rfl : lc = some cfg := h
  have hp : (patchedConfig cfg).logConfig.fileLocation =
      if cfg.logFile ≠ "" then filepathJoin cfg.logFile "nucleus.log"
      else cfg.logConfig.fileLocation := by
    by_cases hc : cfg.logFile = "" <;> simp [patchedConfig, hc]
  simp only [run]
  split
  · simp [hp]
  · split
    · simp [preTrace, hp]
    · obtain ⟨r, hr, _, _⟩ := initServices_shape cfg ts az bl tk zs ca pa co sel
      rw [hr]
      simp [preTrace, hp]

/-- Witness for C10 at a concrete loaded configuration. -/
theorem C10_logLocationPatchedBeforeLogger_witness :
    (run (allOkInput cfgSample true OuterSelect.tasksDoneFirst)).trace.head? =
      some (Ev.newLoggerCall
        (if cfgSample.logFile ≠ "" then filepathJoin cfgSample.logFile "nucleus.log"
         else cfgSample.logConfig.fileLocation)) :=
  C10_logLocationPatchedBeforeLogger
    (allOkInput cfgSample true OuterSelect.tasksDoneFirst) cfgSample rfl

/-- C2 counterexample: a run in which the orchestrator's `Start` fails
(Fatal pipeline failure) and which completes without interrupt or
forced termination exits with status 0 — not, as claimed, a non-zero
code: line 173 discards `pl.Start`'s result and line 215 runs
`os.Exit(0)` once both goroutines finish. -/
theorem C2_counterexample :
    (run (allOkInput cfgSample false OuterSelect.tasksDoneFirst)).outcome =
      RunOutcome.exit 0 ∧
    processExitCode
      (run (allOkInput cfgSample false OuterSelect.tasksDoneFirst)).outcome = 0 :=
  ⟨rfl, rfl⟩

/-- C2 (amended): if the pipeline run ends in a Fatal failure (the
orchestrator's `Start` fails) and the process otherwise completes
without forced termination, the process still exits with code 0: the
coordinator discards `pl.Start`'s outcome, so the exit code does not
depend on it. -/
theorem C2_startFailureIgnoredExitZero (cfg : Config) (startOk : Bool) :
    (run (allOkInput cfg startOk OuterSelect.tasksDoneFirst)).outcome =
      RunOutcome.exit 0 ∧
    run (allOkInput cfg false OuterSelect.tasksDoneFirst) =
      run (allOkInput cfg true OuterSelect.tasksDoneFirst) :=
  ⟨rfl, rfl⟩

/-- C3: if both tasks finish before any interrupt arrives, the process
exits with status 0; and if an interrupt arrives first but both tasks
then finish within the grace period, the exit code is also 0. -/
theorem C3_cleanExitZero (cfg : Config) (startOk : Bool) (d : Nat)
    (hd : d < gracefulTimeoutMs) :
    processExitCode
      (run (allOkInput cfg startOk OuterSelect.tasksDoneFirst)).outcome = 0 ∧
    processExitCode
      (run (allOkInput cfg startOk (OuterSelect.interruptFirst (some d)))).outcome = 0 := by
  refine ⟨rfl, ?_⟩
  have hret :
      (run (allOkInput cfg startOk (OuterSelect.interruptFirst (some d)))).outcome =
        RunOutcome.ret := by
    simp [run, allOkInput, initServices, initServicesTail, shutdownSelect, hd]
  rw [hret]
  rfl

/-- Witness for C3 at a concrete configuration and a 0 ms finish. -/
theorem C3_cleanExitZero_witness :
    processExitCode
      (run (allOkInput cfgSample true OuterSelect.tasksDoneFirst)).outcome = 0 ∧
    processExitCode
      (run (allOkInput cfgSample true (OuterSelect.interruptFirst (some 0)))).outcome = 0 :=
  C3_cleanExitZero cfgSample true 0 (by decide)

/-- C1 counterexample: when an interrupt arrives and the goroutines do
not finish within the grace period, the coordinator logs that the
grace period was exceeded but `run` then returns normally, so the
process terminates with exit status 0 — not, as claimed, a non-zero
exit code. -/
theorem C1_counterexample :
    Ev.logGraceTimeoutExceeded ∈
      (run (allOkInput cfgSample true (OuterSelect.interruptFirst none))).trace ∧
    (run (allOkInput cfgSample true (OuterSelect.interruptFirst none))).outcome =
      RunOutcome.ret ∧
    processExitCode
      (run (allOkInput cfgSample true (OuterSelect.interruptFirst none))).outcome = 0 := by
  refine ⟨?_, rfl, rfl⟩
  decide

/-- C1 (amended): if an external interrupt arrives before both root
tasks have finished, the coordinator triggers the shared cancellation
signal and waits at most the fixed grace period of 5000 ms for both
tasks to finish; if the grace period elapses first, it reports that
the grace period was exceeded and the process terminates by `run`
returning — with exit status 0, not a non-zero exit code. -/
theorem C1_graceTimeoutExitZero (cfg : Config) (startOk : Bool)
    (d : Option Nat) (hd : ∀ x, d = some x → gracefulTimeoutMs ≤ x) :
    gracefulTimeoutMs = 5000 ∧
    (run (allOkInput cfg startOk (OuterSelect.interruptFirst d))).trace =
      launchedTrace cfg ++
        [Ev.cancelCtx, Ev.awaitDone, Ev.logGraceTimeoutExceeded] ∧
    (run (allOkInput cfg startOk (OuterSelect.interruptFirst d))).outcome =
      RunOutcome.ret ∧
    processExitCode
      (run (allOkInput cfg startOk (OuterSelect.interruptFirst d))).outcome = 0 := by
  rcases d with _ | x
  · exact ⟨rfl, rfl, rfl, rfl⟩
  · have hx : ¬ x < gracefulTimeoutMs := by
      have hle := hd x rfl
      omega
    refine ⟨rfl, ?_, ?_, ?_⟩ <;>
      simp [run, allOkInput, initServices, initServicesTail, shutdownSelect,
        processExitCode, hx]

/-- Witness for C1 at a concrete input whose goroutines never finish
after the cancel. -/
theorem C1_graceTimeoutExitZero_witness :
    gracefulTimeoutMs = 5000 ∧
    (run (allOkInput cfgSample true (OuterSelect.interruptFirst none))).trace =
      launchedTrace cfgSample ++
        [Ev.cancelCtx, Ev.awaitDone, Ev.logGraceTimeoutExceeded] ∧
    (run (allOkInput cfgSample true (OuterSelect.interruptFirst none))).outcome =
      RunOutcome.ret ∧
    processExitCode
      (run (allOkInput cfgSample true (OuterSelect.interruptFirst none))).outcome = 0 :=
  C1_graceTimeoutExitZero cfgSample true none (fun _ hx => nomatch hx)

/-- C4: each of the two root tasks, on finishing — whether `pl.Start`
succeeded or failed — runs its deferred `cancel()`, triggering the
shared cancellation signal after the task body: in both goroutine
traces the `cancelCtx` event occurs strictly after the body call. -/
theorem C4_taskFinishTriggersCancel (startOk : Bool) :
    (∃ i j : Nat, i < j ∧
      (pipelineTaskTrace startOk)[i]? = some (Ev.pipelineStartCall startOk) ∧
      (pipelineTaskTrace startOk)[j]? = some Ev.cancelCtx) ∧
    (∃ i j : Nat, i < j ∧
      serverTaskTrace[i]? = some Ev.serverListenAndServe ∧
      serverTaskTrace[j]? = some Ev.cancelCtx) :=
  ⟨⟨0, 2, by omega, rfl, rfl⟩, ⟨0, 2, by omega, rfl, rfl⟩⟩

/-- C5: on the interrupt-driven shutdown path the coordinator's
actions are strictly ordered: the cancellation trigger, then the
bounded await of both tasks, then the grace-period evaluation (whose
outcome is one of the two logs), and neither the trigger nor the await
occurs anywhere earlier in the trace. -/
theorem C5_shutdownStrictOrder (cfg : Config) (startOk : Bool)
    (d : Option Nat) :
    ∃ p e,
      (run (allOkInput cfg startOk (OuterSelect.interruptFirst d))).trace =
        p ++ [Ev.cancelCtx, Ev.awaitDone, e] ∧
      Ev.cancelCtx ∉ p ∧ Ev.awaitDone ∉ p ∧
      (e = Ev.logDoneWithinTimeout ∨ e = Ev.logGraceTimeoutExceeded) := by
  have h1 : Ev.cancelCtx ∉ launchedTrace cfg := by
    simp [launchedTrace, preTrace, collaboratorFields]
  have h2 : Ev.awaitDone ∉ launchedTrace cfg := by
    simp [launchedTrace, preTrace, collaboratorFields]
  rcases d with _ | x
  · exact ⟨launchedTrace cfg, Ev.logGraceTimeoutExceeded, rfl, h1, h2, Or.inr rfl⟩
  · by_cases hx : x < gracefulTimeoutMs
    · refine ⟨launchedTrace cfg, Ev.logDoneWithinTimeout, ?_, h1, h2, Or.inl rfl⟩
      simp [run, allOkInput, initServices, initServicesTail, shutdownSelect, hx]
    · refine ⟨launchedTrace cfg, Ev.logGraceTimeoutExceeded, ?_, h1, h2, Or.inr rfl⟩
      simp [run, allOkInput, initServices, initServicesTail, shutdownSelect, hx]

/-- C6: on every run that reaches the goroutine launches, all fourteen
collaborator fields (payload manager, TAS config manager, git manager,
diff manager, test discovery service, blocklist service, test
execution service, execution manager, parser service, coverage
service, test stats, task, cache store, secret parser) are assigned to
the pipeline before the pipeline goroutine — and hence `pl.Start` — is
launched; the orchestrator (per its spec contract) constructs none of
them itself. -/
theorem C6_collaboratorsWiredBeforeStart (cfg : Config) (startOk : Bool)
    (sel : OuterSelect) :
    (∃ p q,
      (run (allOkInput cfg startOk sel)).trace =
        p ++ collaboratorFields.map Ev.assignField ++ Ev.goPipelineStart :: q ∧
      Ev.goPipelineStart ∉ p) ∧
    orchestratorConstructsCollaborators = false := by
  refine ⟨?_, rfl⟩
  have hp : Ev.goPipelineStart ∉ preTrace cfg := by simp [preTrace]
  rcases sel with _ | d
  · refine ⟨preTrace cfg, [Ev.goServerStart, Ev.signalNotifyInterrupt], ?_, hp⟩
    simp [run, allOkInput, initServices, initServicesTail, shutdownSelect,
      launchedTrace, List.append_assoc]
  · rcases d with _ | x
    · refine ⟨preTrace cfg,
        [Ev.goServerStart, Ev.signalNotifyInterrupt,
         Ev.cancelCtx, Ev.awaitDone, Ev.logGraceTimeoutExceeded], ?_, hp⟩
      simp [run, allOkInput, initServices, initServicesTail, shutdownSelect,
        launchedTrace, List.append_assoc]
    · by_cases hx : x < gracefulTimeoutMs
      · refine ⟨preTrace cfg,
          [Ev.goServerStart, Ev.signalNotifyInterrupt,
           Ev.cancelCtx, Ev.awaitDone, Ev.logDoneWithinTimeout], ?_, hp⟩
        simp [run, allOkInput, initServices, initServicesTail, shutdownSelect,
          launchedTrace, List.append_assoc, hx]
      · refine ⟨preTrace cfg,
          [Ev.goServerStart, Ev.signalNotifyInterrupt,
           Ev.cancelCtx, Ev.awaitDone, Ev.logGraceTimeoutExceeded], ?_, hp⟩
        simp [run, allOkInput, initServices, initServicesTail, shutdownSelect,
          launchedTrace, List.append_assoc, hx]

/-- C8: on every run that constructs the logger, the control-plane
host is resolved exactly once (one `SetNeuronHost` call in the whole
trace — so it is never mutated afterwards), and the written value is
the whitespace-trimmed `SynapseHost` when the local-runner flag is
set, else the fixed remote host. -/
theorem C8_hostResolvedExactlyOnce (inp : RunInput) (cfg : Config)
    (h1 : inp.loadedConfig = some cfg) (h2 : inp.newLoggerOk = true) :
    (run inp).trace.countP isSetNeuronHost = 1 ∧
    Ev.setNeuronHost
        (if cfg.localRunner then cfg.synapseHost.trim else NeuronRemoteHost) ∈
      (run inp).trace := by
  obtain ⟨lc, lg, pp, ts, az, bl, tk, zs, ca, pa, co, st, sel⟩ := inp
  obtain rfl : lc = some cfg := h1
  obtain rfl : lg = true := h2
  have hhost : Ev.setNeuronHost
      (if cfg.localRunner then cfg.synapseHost.trim else NeuronRemoteHost) ∈
      preTrace cfg := by
    simp [preTrace, resolvedHost_patched]
  constructor
  · simp only [run]
    split
    · simp_all
    · split
      · simp [List.countP_append, preTrace_hostWriteCount, isSetNeuronHost]
      · obtain ⟨r, hr, hr1, _⟩ := initServices_shape cfg ts az bl tk zs ca pa co sel
        rw [hr, List.countP_append, preTrace_hostWriteCount,
          countP_setHost_zero r hr1]
  · simp only [run]
    split
    · simp_all
    · split
      · exact List.mem_append_left _ hhost
      · obtain ⟨r, hr, _, _⟩ := initServices_shape cfg ts az bl tk zs ca pa co sel
        rw [hr]
        exact List.mem_append_left _ hhost

/-- Witness for C8 at a concrete loaded configuration. -/
theorem C8_hostResolvedExactlyOnce_witness :
    (run (allOkInput cfgSample true OuterSelect.tasksDoneFirst)).trace.countP
        isSetNeuronHost = 1 ∧
    Ev.setNeuronHost
        (if cfgSample.localRunner then cfgSample.synapseHost.trim
         else NeuronRemoteHost) ∈
      (run (allOkInput cfgSample true OuterSelect.tasksDoneFirst)).trace :=
  C8_hostResolvedExactlyOnce
    (allOkInput cfgSample true OuterSelect.tasksDoneFirst) cfgSample rfl rfl

/-- An input whose azure blob-store construction failed, with the
remaining constructors succeeding, for the C9 witness. -/
def azureFailInput : RunInput :=
  ⟨some cfgSample, true, true, true, false, true, true, true, true, true, true,
   true, OuterSelect.tasksDoneFirst⟩

/-- C9: if the azure blob-store constructor returns an error, the
process terminates fatally (exit 1) through the first, unconditional
error check — regardless of the local-runner flag, which is left
arbitrary in `cfg` — and the second check guarded by the same error
and the negated local-runner flag never fires, in this or any other
execution. -/
theorem C9_azureFatalUnconditional (inp : RunInput) (cfg : Config)
    (h1 : inp.loadedConfig = some cfg) (h2 : inp.newLoggerOk = true)
    (h3 : inp.newPipelineOk = true) (h4 : inp.testStatsOk = true)
    (h5 : inp.azureBlobOk = false) :
    (run inp).outcome = RunOutcome.exit 1 ∧
    Ev.logFatalAt "azureBlob" ∈ (run inp).trace ∧
    Ev.logFatalAt "azureBlobNonLocal" ∉ (run inp).trace := by
  refine ⟨?_, ?_, deadAzureBranchNeverTaken inp⟩ <;>
  · obtain ⟨lc, lg, pp, ts, az, bl, tk, zs, ca, pa, co, st, sel⟩ := inp
    obtain rfl : lc = some cfg := h1
    obtain rfl : lg = true := h2
    obtain rfl : pp = true := h3
    obtain rfl : ts = true := h4
    obtain rfl : az = false := h5
    simp [run, initServices, preTrace]

/-- Witness for C9 at a concrete input with a failed azure
constructor. -/
theorem C9_azureFatalUnconditional_witness :
    (run azureFailInput).outcome = RunOutcome.exit 1 ∧
    Ev.logFatalAt "azureBlob" ∈ (run azureFailInput).trace ∧
    Ev.logFatalAt "azureBlobNonLocal" ∉ (run azureFailInput).trace :=
  C9_azureFatalUnconditional azureFailInput cfgSample rfl rfl rfl rfl rfl

end Nucleus
